import Mathlib

/-!
Verification development for the private-schools-express repository.

Shallow embedding of:
  * `src/frontend/src/lib/validators.ts` (`formatGeorgianPhone`),
  * `src/backend/src/utils/sanitize.ts` (`sanitizeString`, `sanitizeUrl`,
    `sanitizePhone`),
  * `src/backend/src/controllers/media.controller.ts` (`createMedia`),
  * `src/backend/src/controllers/auth.controller.ts` (the school CRUD
    handlers `getAllSchools`, `updateSchool`, `deleteSchool`, the helpers
    `sanitizeSchoolData` / `transformNestedUpdates`, and the `createSchool`
    serialization of list-typed level sub-fields),
  * `src/unnamed/part_002` (the `authenticate` middleware's role resolution).

JavaScript strings are modelled as Lean `String` (a list of characters);
`undefined`/`null` string arguments are modelled as `Option String` with
`none`, and the JS falsy test `!s` on a string argument is `s = ""`.
-/

/-! ## JavaScript string primitives -/

/-- The whitespace class used by JS `String.prototype.trim` and the regex
class `\s` (the ASCII members plus the common Unicode ones; the exotic
members are irrelevant to every claim below). -/
def jsWhitespaceChar (c : Char) : Bool :=
  c = ' ' || c = '\t' || c = '\n' || c = '\x0b' || c = '\x0c' || c = '\r' ||
  c = ' ' || c = '﻿' || c = ' ' || c = ' '

/-- Drop the longest suffix of `l` whose members satisfy `p`. -/
def dropTrailing (p : Char → Bool) (l : List Char) : List Char :=
  ((l.reverse.dropWhile p).reverse)

/-- JS `String.prototype.trim`: remove whitespace from both ends. -/
def jsTrim (s : String) : String :=
  String.mk (dropTrailing jsWhitespaceChar (s.data.dropWhile jsWhitespaceChar))

/-- JS `String.prototype.slice(0, n)` on a string: the first `n` characters. -/
def jsSlice (s : String) (n : Nat) : String :=
  String.mk (s.data.take n)

/-- JS `s.substring(a, b)` (for `a ≤ b`): characters at positions `[a, b)`. -/
def jsSubstr (s : String) (a b : Nat) : String :=
  String.mk ((s.data.drop a).take (b - a))

/-- JS `s.toLowerCase()` restricted to ASCII (sufficient for the URL scheme
check, the only place it is used). -/
def jsLower (s : String) : String :=
  String.mk (s.data.map Char.toLower)

/-- One decimal digit, the JS regex class `\d`. -/
def jsDigit (c : Char) : Bool := c.isDigit

/-- The numeric value of a run of decimal digits. -/
def decimalValue (cs : List Char) : Nat :=
  cs.foldl (fun n c => 10 * n + (c.toNat - '0'.toNat)) 0

/-! ## `src/frontend/src/lib/validators.ts` -/

/-- The character filter of `formatGeorgianPhone`'s first step,
`phone.replace(/[^\d+]/g, '')`: keep digits and `+`. -/
def keepDigitPlus (c : Char) : Bool := jsDigit c || c = '+'

/-- The cleaned form of a phone string: every character other than a digit
or `+` removed. -/
def cleanedPhone (s : String) : List Char :=
  s.data.filter keepDigitPlus

/-- The test `/^\d{9}$/.test cs`: exactly 9 characters, all digits. -/
def isNineDigits (cs : List Char) : Bool :=
  cs.length = 9 && cs.all jsDigit

/-- Embedding of `formatGeorgianPhone` (validators.ts lines 67-91): strip
everything but digits and `+`; if the result is 9 bare digits use it, else
if it starts with `+995` use what follows; require exactly 9 remaining
characters and lay them out as `+995 XXX XX XX XX`. The `string | undefined
| null` argument is collapsed to `String` with the falsy guard `s = ""`
(the `none` case returns `''` exactly like `""`). -/
def formatGeorgianPhone (phone : String) : String :=
  if phone = "" then "" else
  let cleaned := cleanedPhone phone
  let digits? : Option (List Char) :=
    if isNineDigits cleaned then some cleaned
    else if ['+', '9', '9', '5'].isPrefixOf cleaned then some (cleaned.drop 4)
    else none
  match digits? with
  | none => ""
  | some digits =>
    if digits.length = 9 then
      "+995 " ++ String.mk (digits.take 3) ++ " " ++ String.mk ((digits.drop 3).take 2)
        ++ " " ++ String.mk ((digits.drop 5).take 2) ++ " " ++ String.mk ((digits.drop 7).take 2)
    else ""

/-- The exact set of inputs `formatGeorgianPhone` accepts, read off its
branches: after the `[^\d+]` strip, the remainder is either 9 bare digits
or starts with `+995` and has exactly 13 characters (9 after the prefix,
digits or stray `+`s alike). -/
def phoneCleanAccepted (s : String) : Bool :=
  isNineDigits (cleanedPhone s) ||
    (['+', '9', '9', '5'].isPrefixOf (cleanedPhone s) && (cleanedPhone s).length = 13)

/-- The three input shapes the specification says the formatter recognizes:
9 bare digits; `+995` followed by 9 digits; `+995 ` then 9 digits spaced
3-2-2-2. (Stated from the specification's words, to compare against the
source's behaviour.) -/
def specRecognizedShape (s : String) : Bool :=
  isNineDigits s.data ||
  (match s.data with
   | '+' :: '9' :: '9' :: '5' :: rest => isNineDigits rest
   | _ => false) ||
  (match s.data with
   | ['+', '9', '9', '5', ' ', a, b, c, ' ', d, e, ' ', f, g, ' ', h, i] =>
     [a, b, c, d, e, f, g, h, i].all jsDigit
   | _ => false)

/-! ## `src/backend/src/utils/sanitize.ts` -/

/-- Embedding of `sanitizeString`: `none` stands for `undefined`/`null`;
the falsy guard also catches `""`.  Trim, strip `<` and `>`, cap at 1000
characters. -/
def sanitizeString (input : Option String) : String :=
  match input with
  | none => ""
  | some s =>
    if s = "" then ""
    else jsSlice (String.mk ((jsTrim s).data.filter (fun c => !(c = '<' || c = '>')))) 1000

/-- Embedding of `sanitizeUrl`: trim; a nonempty trimmed value must start
with `http://` or `https://` case-insensitively, else the result is `""`;
cap at 500 characters. -/
def sanitizeUrl (url : Option String) : String :=
  match url with
  | none => ""
  | some s =>
    if s = "" then ""
    else
      let trimmed := jsTrim s
      if trimmed ≠ "" &&
          !("http://".data.isPrefixOf (jsLower trimmed).data ||
            "https://".data.isPrefixOf (jsLower trimmed).data) then
        ""
      else jsSlice trimmed 500

/-- Embedding of `sanitizePhone`: try `formatGeorgianPhone`; on failure trim
and keep only digits, `+`, whitespace and `-`, capped at 20 characters. -/
def sanitizePhone (phone : Option String) : String :=
  match phone with
  | none => ""
  | some s =>
    if s = "" then ""
    else
      let formatted := formatGeorgianPhone s
      if formatted ≠ "" then formatted
      else jsSlice (String.mk ((jsTrim s).data.filter
        (fun c => jsDigit c || c = '+' || jsWhitespaceChar c || c = '-'))) 20

/-! ## Data model and request context

`SchoolData` keeps the scalar columns the claims touch (identity, owner
bookkeeping, the sanitized string/URL/phone columns, two representative
columns copied as-is by the handlers) plus the two 1:1 children collapsed
to opaque blobs — the claims below are about top-level behaviour, child
rows travel with the record. -/

/-- A stored role-assignment row's role tag (`UserRole.role`). -/
inductive Role where
  | admin
  | employee
deriving DecidableEq

/-- A stored school record (the scalar slice of `SchoolData` relevant to
the claims, with its children carried as opaque values). -/
structure School where
  id : String
  createdBy : String
  updatedBy : String
  createdAt : Nat
  name : String
  phoneNumber1 : String
  phoneNumber2 : String
  phoneNumber3 : String
  schoolsWebSite : String
  facebookProfileURL : String
  instagramProfileURL : String
  description : String
  founder : String
  establishedYear : Int
  address : String
  infrastructure : String
deriving DecidableEq

/-- What the auth middleware attaches to a request: `req.user?.id` and
`req.userRole` (`null` modelled as `none`). -/
structure AuthCtx where
  user : Option String
  userRole : Option Role
deriving DecidableEq

/-- Embedding of the role lookup in `authenticate` (part_002 lines 60-67):
`prisma.userRole.findUnique({where: {user_id}})` over the role table, then
`req.userRole = userRole?.role || null`. -/
def resolveRole (roleRows : List (String × Role)) (uid : String) : Option Role :=
  (roleRows.find? (fun r => r.1 = uid)).map Prod.snd

/-- The request context `authenticate` leaves behind for a caller whose
token verified as user `uid`, given the role table. -/
def authenticatedCtx (roleRows : List (String × Role)) (uid : String) : AuthCtx :=
  { user := some uid, userRole := resolveRole roleRows uid }

/-- The request context of an anonymous caller (no Authorization header on
an `optionalAuthenticate` route). -/
def anonymousCtx : AuthCtx := { user := none, userRole := none }

/-! ## `getAllSchools` (auth.controller.ts lines 160-257) -/

/-- The `whereClause` of `getAllSchools` as a predicate on records:
`if (userId && userRole)` then admins see all and employees see
`{createdBy: userId}`; otherwise the filter is empty. -/
def visibleTo (ctx : AuthCtx) (s : School) : Bool :=
  match ctx.user, ctx.userRole with
  | some uid, some r => match r with
    | .admin => true
    | .employee => s.createdBy = uid
  | _, _ => true

/-- Ordering used by `orderBy: {createdAt: 'desc'}`: newest first. -/
def newerFirst (a b : School) : Prop := b.createdAt ≤ a.createdAt

instance : DecidableRel newerFirst := fun a b => Nat.decLe b.createdAt a.createdAt

instance : IsTotal School newerFirst :=
  ⟨fun a b => Nat.le_total b.createdAt a.createdAt⟩

instance : IsTrans School newerFirst :=
  ⟨fun _ _ _ h1 h2 => Nat.le_trans h2 h1⟩

/-- The filtered, `createdAt`-descending record list a list request is
computed from (`findMany({where, orderBy})`). -/
def listSchools (ctx : AuthCtx) (db : List School) : List School :=
  (db.filter (visibleTo ctx)).insertionSort newerFirst

/-- JS `parseInt(s)` in base 10: skip leading whitespace, optional sign,
longest leading digit run; `none` is `NaN` (the `0x` hexadecimal form is
not modelled — no claim involves it). -/
def jsParseInt (s : String) : Option Int :=
  let cs := s.data.dropWhile jsWhitespaceChar
  let signDigits : Int × List Char :=
    match cs with
    | '-' :: rest => (-1, rest)
    | '+' :: rest => (1, rest)
    | _ => (1, cs)
  let digits := signDigits.2.takeWhile jsDigit
  if digits.isEmpty then none
  else some (signDigits.1 * (decimalValue digits : Nat))

/-- JS `v || d` after a `parseInt`: `NaN` and `0` both fall back to the
default. -/
def jsOrDefault (v : Option Int) (d : Int) : Int :=
  match v with
  | none => d
  | some 0 => d
  | some n => n

/-- JS truthiness of an optional query-string value (`!page`):
absent and `""` are falsy. -/
def queryTruthy (q : Option String) : Bool :=
  match q with
  | none => false
  | some s => s ≠ ""

/-- JS `Math.ceil(a / b)` for integers, `b ≠ 0` (after defaulting,
`pageSizeNum` is never 0). -/
def jsCeilDiv (a b : Int) : Int := -((-a).fdiv b)

/-- The successful response shapes of `getAllSchools`: either the bare
record list (no pagination envelope) or the `{data, pagination}` envelope. -/
inductive ListResult where
  | plain (schools : List School)
  | paged (data : List School) (page pageSize : Int) (totalCount : Nat) (totalPages : Int)
deriving DecidableEq

/-- Embedding of the success path of `getAllSchools`: the visibility
filter, the `!page && !pageSize` branch, the `parseInt(x) || default`
parsing, `skip = (page-1)*pageSize`, `take = pageSize` and
`totalPages = Math.ceil(totalCount / pageSize)`.  The `lightweight`
projection narrows returned columns only and is not modelled; `skip`/`take`
are modelled for non-negative values (Prisma rejects negatives with an
error). -/
def getAllSchools (ctx : AuthCtx) (pageQ pageSizeQ : Option String)
    (db : List School) : ListResult :=
  if !queryTruthy pageQ && !queryTruthy pageSizeQ then
    .plain (listSchools ctx db)
  else
    let pageNum := jsOrDefault (pageQ.bind jsParseInt) 1
    let pageSizeNum := jsOrDefault (pageSizeQ.bind jsParseInt) 50
    let skip := (pageNum - 1) * pageSizeNum
    let totalCount := (db.filter (visibleTo ctx)).length
    let data := ((listSchools ctx db).drop skip.toNat).take pageSizeNum.toNat
    .paged data pageNum pageSizeNum totalCount (jsCeilDiv totalCount pageSizeNum)

/-- A handler's error response body: the HTTP status, the fixed `error`
string and the `details`/`message` string built from the caught
exception. -/
structure ErrBody where
  status : Nat
  error : String
  details : String
deriving DecidableEq

/-- The catch branch of `getAllSchools` (lines 250-256): status 500, fixed
`error`, and `details` set to the exception's raw `message` (a thrown
non-`Error` is modelled as `none`). -/
def getAllSchoolsCatch (message : Option String) : ErrBody :=
  { status := 500, error := "Failed to fetch schools",
    details := message.getD "Unknown error" }

/-- The full `getAllSchools` handler: a persistence failure (`.error e`)
takes the catch branch, otherwise the success path runs on the fetched
rows. -/
def getAllSchoolsH (ctx : AuthCtx) (pageQ pageSizeQ : Option String)
    (fetch : Except String (List School)) : Except ErrBody ListResult :=
  match fetch with
  | .error e => .error (getAllSchoolsCatch (some e))
  | .ok db => .ok (getAllSchools ctx pageQ pageSizeQ db)

/-! ## `updateSchool` / `deleteSchool` (auth.controller.ts lines 497-603) -/

/-- The update payload: `undefined` (absent key) is `none`.  The source
coerces present sanitized fields with `String(...)`, so their values are
modelled as strings; `founder`/`establishedYear` stand for the fields
copied as-is; `address`/`infrastructure` for the nested child payloads. -/
structure UpdatePayload where
  name : Option String := none
  phoneNumber1 : Option String := none
  phoneNumber2 : Option String := none
  phoneNumber3 : Option String := none
  schoolsWebSite : Option String := none
  facebookProfileURL : Option String := none
  instagramProfileURL : Option String := none
  description : Option String := none
  founder : Option String := none
  establishedYear : Option Int := none
  address : Option String := none
  infrastructure : Option String := none
deriving DecidableEq

/-- Embedding of `sanitizeSchoolData` (lines 110-139): sanitize the
present string/URL/phone fields, copy every other present field and the
nested objects as-is. -/
def sanitizeSchoolData (d : UpdatePayload) : UpdatePayload :=
  { name := d.name.map (fun v => sanitizeString (some v)),
    phoneNumber1 := d.phoneNumber1.map (fun v => sanitizePhone (some v)),
    phoneNumber2 := d.phoneNumber2.map (fun v => sanitizePhone (some v)),
    phoneNumber3 := d.phoneNumber3.map (fun v => sanitizePhone (some v)),
    schoolsWebSite := d.schoolsWebSite.map (fun v => sanitizeUrl (some v)),
    facebookProfileURL := d.facebookProfileURL.map (fun v => sanitizeUrl (some v)),
    instagramProfileURL := d.instagramProfileURL.map (fun v => sanitizeUrl (some v)),
    description := d.description.map (fun v => sanitizeString (some v)),
    founder := d.founder,
    establishedYear := d.establishedYear,
    address := d.address,
    infrastructure := d.infrastructure }

/-- The write `prisma.schoolData.update` performs on the matched row:
present payload fields (after `transformNestedUpdates`) overwrite, absent
ones are left untouched, and `updatedBy` is set to the caller
(`updatedBy: userId`; an `undefined` value makes Prisma skip the
column). -/
def applySchoolUpdate (s : School) (d : UpdatePayload) (userId : Option String) : School :=
  { s with
    name := d.name.getD s.name,
    phoneNumber1 := d.phoneNumber1.getD s.phoneNumber1,
    phoneNumber2 := d.phoneNumber2.getD s.phoneNumber2,
    phoneNumber3 := d.phoneNumber3.getD s.phoneNumber3,
    schoolsWebSite := d.schoolsWebSite.getD s.schoolsWebSite,
    facebookProfileURL := d.facebookProfileURL.getD s.facebookProfileURL,
    instagramProfileURL := d.instagramProfileURL.getD s.instagramProfileURL,
    description := d.description.getD s.description,
    founder := d.founder.getD s.founder,
    establishedYear := d.establishedYear.getD s.establishedYear,
    address := d.address.getD s.address,
    infrastructure := d.infrastructure.getD s.infrastructure,
    updatedBy := userId.getD s.updatedBy }

/-- One persistence-layer operation a handler performs, in order. -/
inductive DbOp where
  | read (id : String)
  | write (id : String)
  | del (id : String)
deriving DecidableEq

/-- A mutating handler's outcome: HTTP status, database after the request,
and the ordered persistence operations it performed. -/
structure HandlerOutcome where
  status : Nat
  db : List School
  trace : List DbOp
deriving DecidableEq

/-- Embedding of `updateSchool` (lines 497-556): load the existing record
(`findUnique` selecting `createdBy`); 404 when absent; 403 when the caller
is an employee and not the owner (`userRole === 'employee' &&
existingSchool.createdBy !== userId`); otherwise sanitize, transform and
update the row, stamping `updatedBy`. -/
def updateSchool (ctx : AuthCtx) (id : String) (d : UpdatePayload)
    (db : List School) : HandlerOutcome :=
  match db.find? (fun s => s.id = id) with
  | none => { status := 404, db := db, trace := [.read id] }
  | some existing =>
    if ctx.userRole = some .employee ∧ ctx.user ≠ some existing.createdBy then
      { status := 403, db := db, trace := [.read id] }
    else
      let s' := applySchoolUpdate existing (sanitizeSchoolData d) ctx.user
      { status := 200,
        db := db.map (fun t => if t.id = id then s' else t),
        trace := [.read id, .write id] }

/-- Embedding of `deleteSchool` (lines 563-603): identical
existence/ownership checks, then `prisma.schoolData.delete` (the cascade
to children travels with the record value). -/
def deleteSchool (ctx : AuthCtx) (id : String) (db : List School) : HandlerOutcome :=
  match db.find? (fun s => s.id = id) with
  | none => { status := 404, db := db, trace := [.read id] }
  | some existing =>
    if ctx.userRole = some .employee ∧ ctx.user ≠ some existing.createdBy then
      { status := 403, db := db, trace := [.read id] }
    else
      { status := 200,
        db := db.filter (fun t => !(t.id = id)),
        trace := [.read id, .del id] }

/-- The catch branch of `updateSchool` (lines 549-555).  Note the source
maps an exception here to status 400, not 500. -/
def updateSchoolCatch (message : Option String) : ErrBody :=
  { status := 400, error := "Failed to update school",
    details := message.getD "Unknown error" }

/-- The catch branch of `deleteSchool` (lines 596-602): status 500 with the
raw exception message in `details`. -/
def deleteSchoolCatch (message : Option String) : ErrBody :=
  { status := 500, error := "Failed to delete school",
    details := message.getD "Unknown error" }

/-! ## `createMedia` (media.controller.ts lines 16-77) -/

/-- A dynamically-typed JSON value as far as the media validator looks at
it: a string, a number, or anything else. -/
inductive JVal where
  | str (v : String)
  | num (v : Int)
  | other
deriving DecidableEq

/-- One raw item of the request body array, fields as received. -/
structure RawMediaItem where
  mediaUrl : JVal
  description : String
  type_ : String
  attachedTo : String
  attachedId : JVal
deriving DecidableEq

/-- The validation test of the loop (lines 28-33), stated positively:
`mediaUrl` a string, `attachedId` a string or number, `type` in
`{photo, video}`, `attachedTo` in `{school, primary, basic, secondary}`. -/
def validMediaItem (item : RawMediaItem) : Bool :=
  (match item.mediaUrl with | .str _ => true | _ => false) &&
  (match item.attachedId with | .str _ => true | .num _ => true | _ => false) &&
  (item.type_ = "photo" || item.type_ = "video") &&
  (item.attachedTo = "school" || item.attachedTo = "primary" ||
    item.attachedTo = "basic" || item.attachedTo = "secondary")

/-- `String(item.attachedId)` for the two accepted shapes. -/
def jsStringOfId : JVal → String
  | .str v => v
  | .num v => toString v
  | .other => "other"

/-- A row as handed to `prisma.media.createMany`: the base fields plus
exactly one polymorphic parent-id column selected by `attachedTo`. -/
structure MediaRow where
  mediaUrl : String
  description : String
  type_ : String
  attachedTo : String
  schoolId : Option String
  primaryLevelId : Option String
  basicLevelId : Option String
  secondaryLevelId : Option String
deriving DecidableEq

/-- The rewrite of a valid item (lines 40-62). -/
def toMediaRow (item : RawMediaItem) : MediaRow :=
  let id := jsStringOfId item.attachedId
  { mediaUrl := jsStringOfId item.mediaUrl,
    description := item.description,
    type_ := item.type_,
    attachedTo := item.attachedTo,
    schoolId := if item.attachedTo = "school" then some id else none,
    primaryLevelId := if item.attachedTo = "primary" then some id else none,
    basicLevelId := if item.attachedTo = "basic" then some id else none,
    secondaryLevelId := if item.attachedTo = "secondary" then some id else none }

/-- The handler's observable outcome: the HTTP status and the rows passed
to the single `createMany` call — `none` when `createMany` was never
reached, `some rows` when it was. -/
structure MediaOutcome where
  status : Nat
  inserted : Option (List MediaRow)
deriving DecidableEq

/-- The validation loop (lines 27-63): returns the accumulated valid rows,
or `none` as soon as one item fails validation (the handler responds 400
and returns there). -/
def collectMediaRows : List RawMediaItem → Option (List MediaRow)
  | [] => some []
  | item :: rest =>
    if validMediaItem item then
      (collectMediaRows rest).map (fun rows => toMediaRow item :: rows)
    else none

/-- Embedding of `createMedia` on an array body: run the loop; an invalid
item means 400 with nothing written; an empty valid list means 400
("No valid media items"); otherwise the one `createMany` call with every
row, then 201. -/
def createMedia (items : List RawMediaItem) : MediaOutcome :=
  match collectMediaRows items with
  | none => { status := 400, inserted := none }
  | some rows =>
    if rows.isEmpty then { status := 400, inserted := none }
    else { status := 201, inserted := some rows }

/-! ## `createSchool` level serialization (auth.controller.ts lines 319-466)

Only the serialization of the list-typed level sub-fields is modelled (the
code the C8 sources point at): for each education level the payload's
`mandatorySportsClubs` and `foreignLanguages` may arrive as a string or as
an array of strings. -/

/-- A value that is either a plain string or an array of strings, the two
shapes `Array.isArray` dispatches on for these fields. -/
inductive StrOrList where
  | str (v : String)
  | list (vs : List String)
deriving DecidableEq

/-- `Array.isArray(v) ? v.join(",") : v` — the serialization applied where
the source applies it. -/
def joinIfArray : StrOrList → StrOrList
  | .str v => .str v
  | .list vs => .str (String.intercalate "," vs)

/-- The list-typed sub-fields of one education level as they arrive. -/
structure LevelListFields where
  mandatorySportsClubs : StrOrList
  foreignLanguages : StrOrList
deriving DecidableEq

/-- The list-typed sub-fields of the three levels of a create payload. -/
structure CreateLevelFields where
  primary : LevelListFields
  basic : LevelListFields
  secondary : LevelListFields
deriving DecidableEq

/-- What `createSchool` hands to `prisma.schoolData.create` for these six
columns (lines 392-400, 420-427, 446-450): `mandatorySportsClubs` of every
level and `foreignLanguages` of `primary` go through the
`Array.isArray(...) ? ....join(",") : ...` serialization;
`foreignLanguages` of `basic` (line 427) and of `secondary` (line 446) are
passed through unchanged. -/
def createSchoolLevelColumns (p : CreateLevelFields) : CreateLevelFields :=
  { primary :=
      { mandatorySportsClubs := joinIfArray p.primary.mandatorySportsClubs,
        foreignLanguages := joinIfArray p.primary.foreignLanguages },
    basic :=
      { mandatorySportsClubs := joinIfArray p.basic.mandatorySportsClubs,
        foreignLanguages := p.basic.foreignLanguages },
    secondary :=
      { mandatorySportsClubs := joinIfArray p.secondary.mandatorySportsClubs,
        foreignLanguages := p.secondary.foreignLanguages } }

/-! ## Concrete fixtures (used by witnesses and counterexamples) -/

/-- A concrete school record owned by `owner`, created at time `t`. -/
def mkSchool (id owner : String) (t : Nat) : School :=
  { id := id, createdBy := owner, updatedBy := owner, createdAt := t,
    name := "Green School", phoneNumber1 := "+995 577 18 91 27",
    phoneNumber2 := "", phoneNumber3 := "",
    schoolsWebSite := "https://example.com", facebookProfileURL := "",
    instagramProfileURL := "", description := "a school",
    founder := "F", establishedYear := 2000,
    address := "Tbilisi", infrastructure := "2 buildings" }

/-- A database of `n` records owned by user `A`, newest first. -/
def demoDb (n : Nat) : List School :=
  (List.range n).map (fun i => mkSchool (toString i) "A" (n - i))

/-- A two-record database: one record owned by `A`, one by `B`. -/
def twoOwnerDb : List School := [mkSchool "sA" "A" 2, mkSchool "sB" "B" 1]

/-- An authenticated admin context. -/
def adminCtx : AuthCtx := { user := some "Adm", userRole := some .admin }

/-- An authenticated employee context for user `uid`. -/
def employeeCtx (uid : String) : AuthCtx := { user := some uid, userRole := some .employee }

/-- A valid photo media item attached to school `sA`. -/
def okMediaItem : RawMediaItem :=
  { mediaUrl := .str "https://example.com/a.jpg", description := "front",
    type_ := "photo", attachedTo := "school", attachedId := .str "sA" }

/-- An invalid media item: its `type` is outside `{photo, video}`. -/
def badMediaItem : RawMediaItem :=
  { mediaUrl := .str "https://example.com/b.jpg", description := "clip",
    type_ := "gif", attachedTo := "school", attachedId := .str "sA" }

/-- An update payload supplying only `name`. -/
def nameOnlyPayload : UpdatePayload := { name := some "New Name" }

/-- Whether a stored level sub-field value is a single flat string. -/
def isFlatString : StrOrList → Bool
  | .str _ => true
  | .list _ => false

/-- Create-payload level fields where the sports clubs and the foreign
languages of every level arrive as arrays. -/
def demoCreateFields : CreateLevelFields :=
  { primary := { mandatorySportsClubs := .list ["football", "chess"],
                 foreignLanguages := .list ["English", "German"] },
    basic := { mandatorySportsClubs := .list ["football"],
               foreignLanguages := .list ["English", "German"] },
    secondary := { mandatorySportsClubs := .list ["swimming"],
                   foreignLanguages := .list ["English", "French"] } }

/-! ### Scratch checks (claim statements on small inputs) -/

example : formatGeorgianPhone "+995577189127" = "+995 577 18 91 27" := by decide
example : formatGeorgianPhone "577189127" = "+995 577 18 91 27" := by decide
example : formatGeorgianPhone "577-18-91-27" = "+995 577 18 91 27" := by decide
example : sanitizeString (some "< a>") = " a" := by decide
example : sanitizeString (some (sanitizeString (some "< a>"))) = "a" := by decide
example : getAllSchools adminCtx (some "6") (some "20") (demoDb 95) =
    .paged [] 6 20 95 5 := by decide
example : getAllSchools adminCtx (some "1") (some "20") (demoDb 5) =
    .paged (demoDb 5) 1 20 5 1 := by decide
example : (createMedia [okMediaItem, badMediaItem, okMediaItem]).status = 400 := by decide
example : (createMedia [okMediaItem, badMediaItem, okMediaItem]).inserted = none := by decide
example : (updateSchool (employeeCtx "B") "sA" nameOnlyPayload twoOwnerDb).status = 403 := by
  decide
example : (deleteSchool adminCtx "sA" twoOwnerDb).status = 200 := by decide
example : listSchools (employeeCtx "A") twoOwnerDb = [mkSchool "sA" "A" 2] := by decide
example : listSchools anonymousCtx twoOwnerDb = twoOwnerDb := by decide

/-! ## Helper lemmas -/

/-- A character of a trimmed string was a character of the string. -/
theorem mem_of_mem_jsTrim {c : Char} {s : String} (h : c ∈ (jsTrim s).data) :
    c ∈ s.data := by
  unfold jsTrim dropTrailing at h
  have h1 := (List.dropWhile_suffix jsWhitespaceChar).sublist.subset
    (List.mem_reverse.mp h)
  exact (List.dropWhile_suffix jsWhitespaceChar).sublist.subset
    (List.mem_reverse.mp h1)

/-- Trimming does not lengthen a string. -/
theorem length_jsTrim_le (s : String) : (jsTrim s).data.length ≤ s.data.length := by
  unfold jsTrim dropTrailing
  calc ((((s.data.dropWhile jsWhitespaceChar).reverse.dropWhile jsWhitespaceChar)).reverse).length
      = ((s.data.dropWhile jsWhitespaceChar).reverse.dropWhile jsWhitespaceChar).length := by
        exact List.length_reverse _
    _ ≤ (s.data.dropWhile jsWhitespaceChar).reverse.length :=
        (List.dropWhile_suffix jsWhitespaceChar).sublist.length_le
    _ = (s.data.dropWhile jsWhitespaceChar).length := List.length_reverse _
    _ ≤ s.data.length := (List.dropWhile_suffix jsWhitespaceChar).sublist.length_le

/-- `sanitizeString` output never contains `<` or `>`. -/
theorem sanitizeString_no_angle (x : Option String) :
    ∀ c ∈ (sanitizeString x).data, !(c = '<' || c = '>') := by
  match x with
  | none => intro c hc; simp [sanitizeString] at hc
  | some s =>
    by_cases hs : s = ""
    · intro c hc; simp [sanitizeString, hs] at hc
    · intro c hc
      simp only [sanitizeString, if_neg hs, jsSlice] at hc
      have h1 := List.mem_of_mem_take hc
      exact (List.mem_filter.mp h1).2

/-- `sanitizeString` output has at most 1000 characters. -/
theorem sanitizeString_length_le (x : Option String) :
    (sanitizeString x).data.length ≤ 1000 := by
  match x with
  | none => simp [sanitizeString]
  | some s =>
    by_cases hs : s = ""
    · simp [sanitizeString, hs]
    · simp only [sanitizeString, if_neg hs, jsSlice]
      rw [List.length_take]
      exact Nat.min_le_left _ _

/-- The media validation loop aborts on any invalid item. -/
theorem collectMediaRows_none_of_invalid (items : List RawMediaItem)
    (h : ∃ it ∈ items, validMediaItem it = false) :
    collectMediaRows items = none := by
  induction items with
  | nil => simp at h
  | cons a rest ih =>
    obtain ⟨it, hmem, hbad⟩ := h
    by_cases hva : validMediaItem a = true
    · simp only [collectMediaRows, if_pos hva]
      rcases List.mem_cons.mp hmem with heq | hrest
      · rw [heq] at hbad; rw [hva] at hbad; cases hbad
      · rw [ih ⟨it, hrest, hbad⟩]; rfl
    · simp only [collectMediaRows, if_neg hva]

/-- A completed media validation loop means every item was valid and the
collected rows are the items' rewrites, in order. -/
theorem collectMediaRows_some (items : List RawMediaItem) (rows : List MediaRow)
    (h : collectMediaRows items = some rows) :
    items.all validMediaItem = true ∧ rows = items.map toMediaRow := by
  induction items generalizing rows with
  | nil =>
    simp only [collectMediaRows, Option.some.injEq] at h
    subst h
    exact ⟨rfl, rfl⟩
  | cons a rest ih =>
    by_cases hva : validMediaItem a = true
    · simp only [collectMediaRows, if_pos hva] at h
      cases hrest : collectMediaRows rest with
      | none => rw [hrest] at h; cases h
      | some rs =>
        rw [hrest] at h
        simp only [Option.map_some', Option.some.injEq] at h
        obtain ⟨hall, hmap⟩ := ih rs hrest
        subst h
        simp [List.all_cons, hva, hall, hmap]
    · simp only [collectMediaRows, if_neg hva] at h
      cases h

/-- C3: for every media batch, all items are validated before any write —
any invalid item yields a 400 response with the bulk insert never reached
(zero rows written), and a reached bulk insert means every item was valid
(the rows being exactly the valid items' rewrites); a 3-item batch whose
second item is invalid writes nothing. -/
theorem createMedia_atomicity :
    (∀ items : List RawMediaItem, (∃ it ∈ items, validMediaItem it = false) →
       createMedia items = { status := 400, inserted := none })
  ∧ (∀ (items : List RawMediaItem) (rows : List MediaRow),
       (createMedia items).inserted = some rows →
         items.all validMediaItem = true ∧ rows = items.map toMediaRow ∧ items ≠ [])
  ∧ createMedia [okMediaItem, badMediaItem, okMediaItem]
      = { status := 400, inserted := none } := by
  refine ⟨?_, ?_, by decide⟩
  · intro items h
    simp [createMedia, collectMediaRows_none_of_invalid items h]
  · intro items rows h
    cases hc : collectMediaRows items with
    | none => simp [createMedia, hc] at h
    | some rs =>
      simp only [createMedia, hc] at h
      by_cases hemp : rs.isEmpty = true
      · rw [if_pos hemp] at h; cases h
      · rw [if_neg hemp] at h
        simp only [Option.some.injEq] at h
        obtain ⟨hall, hmap⟩ := collectMediaRows_some items rs hc
        refine ⟨hall, by rw [← h, hmap], ?_⟩
        intro hnil
        subst hnil
        simp [collectMediaRows] at hc
        rw [hc] at hemp
        exact hemp rfl

/-- C8 (amended): on create, `mandatorySportsClubs` of all three education
levels and `foreignLanguages` of the primary level are serialized with
`Array.isArray(v) ? v.join(",") : v`; `foreignLanguages` of the basic and
secondary levels are passed through unchanged (an array stays an array). -/
theorem level_list_serialization :
    ∀ p : CreateLevelFields,
      (createSchoolLevelColumns p).primary.mandatorySportsClubs
          = joinIfArray p.primary.mandatorySportsClubs
      ∧ (createSchoolLevelColumns p).primary.foreignLanguages
          = joinIfArray p.primary.foreignLanguages
      ∧ (createSchoolLevelColumns p).basic.mandatorySportsClubs
          = joinIfArray p.basic.mandatorySportsClubs
      ∧ (createSchoolLevelColumns p).basic.foreignLanguages
          = p.basic.foreignLanguages
      ∧ (createSchoolLevelColumns p).secondary.mandatorySportsClubs
          = joinIfArray p.secondary.mandatorySportsClubs
      ∧ (createSchoolLevelColumns p).secondary.foreignLanguages
          = p.secondary.foreignLanguages
      ∧ (∀ vs, joinIfArray (.list vs) = .str (String.intercalate "," vs))
      ∧ (∀ vs, isFlatString (joinIfArray (.list vs)) = true) :=
  fun _ => ⟨rfl, rfl, rfl, rfl, rfl, rfl, fun _ => rfl, fun _ => rfl⟩

/-- C8 counterexample: a create payload whose basic-level foreign languages
arrive as the array `["English", "German"]` stores that field still as an
array, not as a flat delimited string (while the primary level's same field
is flattened to `"English,German"`). -/
theorem basic_languages_not_flattened :
    (createSchoolLevelColumns demoCreateFields).basic.foreignLanguages
        = StrOrList.list ["English", "German"]
    ∧ isFlatString (createSchoolLevelColumns demoCreateFields).basic.foreignLanguages
        = false
    ∧ (createSchoolLevelColumns demoCreateFields).primary.foreignLanguages
        = StrOrList.str "English,German"
    ∧ isFlatString (createSchoolLevelColumns demoCreateFields).primary.foreignLanguages
        = true := by
  refine ⟨rfl, rfl, ?_, rfl⟩
  show joinIfArray (.list ["English", "German"]) = StrOrList.str "English,German"
  rfl

/-- C6 (amended): a persistence-layer exception is caught at the handler
boundary and mapped to an error response whose top-level `error` string is
generic, but whose `details` field carries the raw exception message
verbatim; `updateSchool` maps it to status 400 (not 500), while the list
and delete handlers map it to 500. -/
theorem persistence_error_mapping :
    ∀ (e : String) (ctx : AuthCtx) (pq psq : Option String),
      getAllSchoolsH ctx pq psq (.error e)
          = .error { status := 500, error := "Failed to fetch schools", details := e }
      ∧ updateSchoolCatch (some e)
          = { status := 400, error := "Failed to update school", details := e }
      ∧ deleteSchoolCatch (some e)
          = { status := 500, error := "Failed to delete school", details := e } :=
  fun _ _ _ _ => ⟨rfl, rfl, rfl⟩

/-- C6 counterexample: a database exception whose message holds connection
detail is echoed verbatim in the 500 response body's `details` field — it
is not redacted — and the update handler returns 400 rather than 500. -/
theorem error_details_leaked :
    getAllSchoolsH anonymousCtx none none
        (.error "connection refused: password authentication failed for db_admin")
      = .error { status := 500, error := "Failed to fetch schools",
                 details := "connection refused: password authentication failed for db_admin" }
    ∧ (updateSchoolCatch (some "boom")).status = 400
    ∧ (updateSchoolCatch (some "boom")).status ≠ 500 :=
  ⟨rfl, rfl, by decide⟩

/-- C2: a PUT or DELETE on an existing school by an authenticated employee
who is not its owner yields 403 with the database unchanged, and the only
persistence operation performed is the ownership-check read (no write or
delete is ever issued, so nothing is rolled back); an admin's PUT and
DELETE on the same record succeed with status 200. -/
theorem updateDelete_ownership (ctx : AuthCtx) (id : String) (d : UpdatePayload)
    (db : List School) (ex : School)
    (hfind : db.find? (fun s => s.id = id) = some ex) :
    ((ctx.userRole = some Role.employee ∧ ctx.user ≠ some ex.createdBy) →
        updateSchool ctx id d db = { status := 403, db := db, trace := [DbOp.read id] }
      ∧ deleteSchool ctx id db = { status := 403, db := db, trace := [DbOp.read id] }
      ∧ (∀ op ∈ (updateSchool ctx id d db).trace, op = DbOp.read id)
      ∧ (∀ op ∈ (deleteSchool ctx id db).trace, op = DbOp.read id))
  ∧ (ctx.userRole = some Role.admin →
        (updateSchool ctx id d db).status = 200
      ∧ (deleteSchool ctx id db).status = 200
      ∧ (deleteSchool ctx id db).db = db.filter (fun t => !(t.id = id))) := by
  constructor
  · intro h
    have hu : updateSchool ctx id d db = { status := 403, db := db, trace := [DbOp.read id] } := by
      simp only [updateSchool, hfind, if_pos h]
    have hd : deleteSchool ctx id db = { status := 403, db := db, trace := [DbOp.read id] } := by
      simp only [deleteSchool, hfind, if_pos h]
    refine ⟨hu, hd, ?_, ?_⟩
    · rw [hu]; intro op hop; simpa using hop
    · rw [hd]; intro op hop; simpa using hop
  · intro ha
    have hno : ¬(ctx.userRole = some Role.employee ∧ ctx.user ≠ some ex.createdBy) := by
      rintro ⟨h1, -⟩
      rw [ha] at h1
      cases h1
    refine ⟨?_, ?_, ?_⟩
    · simp only [updateSchool, hfind, if_neg hno]
    · simp only [deleteSchool, hfind, if_neg hno]
    · simp only [deleteSchool, hfind, if_neg hno]

/-- C2 witness: employee `B`'s PUT and DELETE on the record owned by `A`
are rejected with 403 and no change, while admin requests succeed. -/
theorem updateDelete_ownership_app :
    updateSchool (employeeCtx "B") "sA" nameOnlyPayload twoOwnerDb
        = { status := 403, db := twoOwnerDb, trace := [DbOp.read "sA"] }
    ∧ deleteSchool (employeeCtx "B") "sA" twoOwnerDb
        = { status := 403, db := twoOwnerDb, trace := [DbOp.read "sA"] }
    ∧ (updateSchool adminCtx "sA" nameOnlyPayload twoOwnerDb).status = 200
    ∧ (deleteSchool adminCtx "sA" twoOwnerDb).status = 200 := by
  have hB := updateDelete_ownership (employeeCtx "B") "sA" nameOnlyPayload twoOwnerDb
    (mkSchool "sA" "A" 2) (by decide)
  have hAdm := updateDelete_ownership adminCtx "sA" nameOnlyPayload twoOwnerDb
    (mkSchool "sA" "A" 2) (by decide)
  have hemp := hB.1 ⟨rfl, by decide⟩
  exact ⟨hemp.1, hemp.2.1, (hAdm.2 rfl).1, (hAdm.2 rfl).2.1⟩

/-- C10: a caller holding a valid token whose user id has no
role-assignment row gets `userRole = none` from the middleware and is
served the same school list as an anonymous caller — every record, not an
owner-filtered subset. -/
theorem missing_role_reads_all (roleRows : List (String × Role)) (uid : String)
    (db : List School) (pq psq : Option String)
    (h : resolveRole roleRows uid = none) :
    getAllSchools (authenticatedCtx roleRows uid) pq psq db
      = getAllSchools anonymousCtx pq psq db
    ∧ (∀ s : School, s ∈ listSchools (authenticatedCtx roleRows uid) db ↔ s ∈ db) := by
  have hctx : authenticatedCtx roleRows uid = { user := some uid, userRole := none } := by
    simp [authenticatedCtx, h]
  have hvis : ∀ s : School, visibleTo (authenticatedCtx roleRows uid) s
      = visibleTo anonymousCtx s := by
    intro s
    rw [hctx]
    rfl
  have hfilter : db.filter (visibleTo (authenticatedCtx roleRows uid))
      = db.filter (visibleTo anonymousCtx) :=
    List.filter_congr (fun s _ => hvis s)
  have hlist : listSchools (authenticatedCtx roleRows uid) db
      = listSchools anonymousCtx db := by
    unfold listSchools
    rw [hfilter]
  constructor
  · unfold getAllSchools
    rw [hlist, hfilter]
  · intro s
    rw [hlist]
    unfold listSchools
    simp [List.mem_filter, visibleTo, anonymousCtx]

/-- C10 witness: with a role table holding only a row for `B`, the
authenticated-but-roleless caller `A` is served exactly the anonymous
list. -/
theorem missing_role_reads_all_app :
    getAllSchools (authenticatedCtx [("B", Role.admin)] "A") none none twoOwnerDb
      = getAllSchools anonymousCtx none none twoOwnerDb :=
  (missing_role_reads_all [("B", Role.admin)] "A" twoOwnerDb none none (by decide)).1

/-- C1: the list visibility filter is empty for anonymous and admin callers
(every record is in the list) and is owner-equals-caller for an
authenticated employee (the list holds exactly the caller's records), and
the unpaginated handler response is exactly this filtered list. -/
theorem getAllSchools_visibility :
    ∀ (db : List School) (uid : String) (s : School),
      (s ∈ listSchools anonymousCtx db ↔ s ∈ db)
    ∧ (s ∈ listSchools { user := some uid, userRole := some Role.admin } db ↔ s ∈ db)
    ∧ (s ∈ listSchools (employeeCtx uid) db ↔ s ∈ db ∧ s.createdBy = uid)
    ∧ (∀ ctx : AuthCtx, getAllSchools ctx none none db = .plain (listSchools ctx db)) := by
  intro db uid s
  refine ⟨?_, ?_, ?_, fun ctx => rfl⟩
  · unfold listSchools
    simp [List.mem_filter, visibleTo, anonymousCtx]
  · unfold listSchools
    simp [List.mem_filter, visibleTo]
  · unfold listSchools
    simp [List.mem_filter, visibleTo, employeeCtx]

/-- C9 (amended): a second application of `sanitizeString` only re-trims —
`sanitizeString (sanitizeString x) = trim (sanitizeString x)` — so
idempotence holds exactly on inputs whose sanitized form is already
trimmed; stripping `<`/`>` (or the 1000-cap) can expose boundary
whitespace that the second pass removes, so idempotence fails in
general. -/
theorem sanitizeString_second_pass :
    (∀ x : Option String,
       sanitizeString (some (sanitizeString x)) = jsTrim (sanitizeString x))
  ∧ (∀ x : Option String, jsTrim (sanitizeString x) = sanitizeString x →
       sanitizeString (some (sanitizeString x)) = sanitizeString x) := by
  have main : ∀ x : Option String,
      sanitizeString (some (sanitizeString x)) = jsTrim (sanitizeString x) := by
    intro x
    by_cases hy : sanitizeString x = ""
    · rw [hy]; rfl
    · have hfilter : (jsTrim (sanitizeString x)).data.filter
          (fun c => !(c = '<' || c = '>')) = (jsTrim (sanitizeString x)).data := by
        apply List.filter_eq_self.mpr
        intro c hc
        exact sanitizeString_no_angle x c (mem_of_mem_jsTrim hc)
      have hlen : (jsTrim (sanitizeString x)).data.length ≤ 1000 :=
        Nat.le_trans (length_jsTrim_le _) (sanitizeString_length_le x)
      show (if sanitizeString x = "" then ""
        else jsSlice (String.mk ((jsTrim (sanitizeString x)).data.filter
          (fun c => !(c = '<' || c = '>')))) 1000) = jsTrim (sanitizeString x)
      rw [if_neg hy, hfilter, jsSlice]
      show String.mk ((jsTrim (sanitizeString x)).data.take 1000) = _
      rw [List.take_of_length_le hlen]
  exact ⟨main, fun x h => (main x).trans h⟩

/-- C9 counterexample: `sanitizeString` is not idempotent — on `"< a>"` the
first pass yields `" a"` (stripping `<` exposed a leading space) and the
second pass yields `"a"`. -/
theorem sanitizeString_not_idempotent :
    sanitizeString (some "< a>") = " a"
    ∧ sanitizeString (some (sanitizeString (some "< a>"))) = "a"
    ∧ sanitizeString (some (sanitizeString (some "< a>"))) ≠ sanitizeString (some "< a>") := by
  refine ⟨by decide, by decide, by decide⟩

/-- C7 (amended): an authorized update writes exactly the payload's fields
— the written record keeps the prior value of every field absent from the
payload, sanitizes the present string/URL/phone fields, copies the other
present fields as-is — except `updatedBy`, which is always overwritten
with the caller's id; records with a different id are carried over
unchanged. -/
theorem updateSchool_frame (ctx : AuthCtx) (id : String) (d : UpdatePayload)
    (db : List School) (ex : School)
    (hfind : db.find? (fun s => s.id = id) = some ex)
    (hauth : ¬(ctx.userRole = some Role.employee ∧ ctx.user ≠ some ex.createdBy)) :
    ∃ s' : School,
      (updateSchool ctx id d db).status = 200
    ∧ s' ∈ (updateSchool ctx id d db).db
    ∧ s'.id = ex.id ∧ s'.createdBy = ex.createdBy ∧ s'.createdAt = ex.createdAt
    ∧ (d.name = none → s'.name = ex.name)
    ∧ (d.phoneNumber1 = none → s'.phoneNumber1 = ex.phoneNumber1)
    ∧ (d.phoneNumber2 = none → s'.phoneNumber2 = ex.phoneNumber2)
    ∧ (d.phoneNumber3 = none → s'.phoneNumber3 = ex.phoneNumber3)
    ∧ (d.schoolsWebSite = none → s'.schoolsWebSite = ex.schoolsWebSite)
    ∧ (d.facebookProfileURL = none → s'.facebookProfileURL = ex.facebookProfileURL)
    ∧ (d.instagramProfileURL = none → s'.instagramProfileURL = ex.instagramProfileURL)
    ∧ (d.description = none → s'.description = ex.description)
    ∧ (d.founder = none → s'.founder = ex.founder)
    ∧ (d.establishedYear = none → s'.establishedYear = ex.establishedYear)
    ∧ (d.address = none → s'.address = ex.address)
    ∧ (d.infrastructure = none → s'.infrastructure = ex.infrastructure)
    ∧ (∀ v, d.name = some v → s'.name = sanitizeString (some v))
    ∧ (∀ v, d.phoneNumber1 = some v → s'.phoneNumber1 = sanitizePhone (some v))
    ∧ (∀ v, d.schoolsWebSite = some v → s'.schoolsWebSite = sanitizeUrl (some v))
    ∧ (∀ v, d.founder = some v → s'.founder = v)
    ∧ (∀ u, ctx.user = some u → s'.updatedBy = u)
    ∧ (∀ t ∈ db, t.id ≠ id → t ∈ (updateSchool ctx id d db).db) := by
  have hid : ex.id = id := by
    have := List.find?_some hfind
    exact of_decide_eq_true this
  have hout : updateSchool ctx id d db =
      { status := 200,
        db := db.map (fun t => if t.id = id
          then applySchoolUpdate ex (sanitizeSchoolData d) ctx.user else t),
        trace := [.read id, .write id] } := by
    simp only [updateSchool, hfind, if_neg hauth]
  refine ⟨applySchoolUpdate ex (sanitizeSchoolData d) ctx.user, ?_, ?_, ?_⟩
  · rw [hout]
  · rw [hout]
    have hmem : ex ∈ db := List.mem_of_find?_eq_some hfind
    refine List.mem_map.mpr ⟨ex, hmem, ?_⟩
    simp [hid]
  refine ⟨rfl, rfl, rfl, ?_, ?_, ?_, ?_, ?_, ?_, ?_, ?_, ?_, ?_, ?_, ?_, ?_, ?_, ?_, ?_, ?_, ?_⟩
  · intro h; simp [applySchoolUpdate, sanitizeSchoolData, h]
  · intro h; simp [applySchoolUpdate, sanitizeSchoolData, h]
  · intro h; simp [applySchoolUpdate, sanitizeSchoolData, h]
  · intro h; simp [applySchoolUpdate, sanitizeSchoolData, h]
  · intro h; simp [applySchoolUpdate, sanitizeSchoolData, h]
  · intro h; simp [applySchoolUpdate, sanitizeSchoolData, h]
  · intro h; simp [applySchoolUpdate, sanitizeSchoolData, h]
  · intro h; simp [applySchoolUpdate, sanitizeSchoolData, h]
  · intro h; simp [applySchoolUpdate, sanitizeSchoolData, h]
  · intro h; simp [applySchoolUpdate, sanitizeSchoolData, h]
  · intro h; simp [applySchoolUpdate, sanitizeSchoolData, h]
  · intro h; simp [applySchoolUpdate, sanitizeSchoolData, h]
  · intro v h; simp [applySchoolUpdate, sanitizeSchoolData, h]
  · intro v h; simp [applySchoolUpdate, sanitizeSchoolData, h]
  · intro v h; simp [applySchoolUpdate, sanitizeSchoolData, h]
  · intro v h; simp [applySchoolUpdate, sanitizeSchoolData, h]
  · intro u h; simp [applySchoolUpdate, h]
  · intro t hmem hne
    rw [hout]
    refine List.mem_map.mpr ⟨t, hmem, ?_⟩
    simp [hne]

/-- C7 witness: the owner `A`'s name-only update of their record succeeds
with status 200. -/
theorem updateSchool_frame_app :
    (updateSchool (employeeCtx "A") "sA" nameOnlyPayload twoOwnerDb).status = 200 := by
  obtain ⟨s', h200, -⟩ := updateSchool_frame (employeeCtx "A") "sA" nameOnlyPayload
    twoOwnerDb (mkSchool "sA" "A" 2) (by decide) (by decide)
  exact h200

/-- C7 counterexample: an admin update supplying only `name` still changes
the record's `updatedBy` (a top-level field absent from the payload) from
`"A"` to `"Adm"`, so not every absent field keeps its prior value. -/
theorem updatedBy_overwritten :
    ((updateSchool adminCtx "sA" nameOnlyPayload twoOwnerDb).db.find?
        (fun t => t.id = "sA")).map School.updatedBy = some "Adm"
    ∧ (twoOwnerDb.find? (fun t => t.id = "sA")).map School.updatedBy = some "A"
    ∧ nameOnlyPayload.name = some "New Name"
    ∧ ("Adm" : String) ≠ "A" := by
  refine ⟨by decide, by decide, rfl, by decide⟩

/-- The JS `Math.ceil(totalCount / pageSize)` computation agrees with the
natural-number ceiling division for a positive page size. -/
theorem jsCeilDiv_eq_natCeil (tc s : Nat) (hs : 0 < s) :
    jsCeilDiv tc s = (((tc + s - 1) / s : Nat) : Int) := by
  have hsne : ((s : Int)) ≠ 0 := by exact_mod_cast Nat.pos_iff_ne_zero.mp hs
  unfold jsCeilDiv
  rw [Int.fdiv_eq_ediv _ (by exact_mod_cast Nat.zero_le s)]
  have hdm : s * (tc / s) + tc % s = tc := Nat.div_add_mod tc s
  have hrlt : tc % s < s := Nat.mod_lt tc hs
  have hdmI : (s : Int) * (tc / s : Nat) + (tc % s : Nat) = (tc : Int) := by
    exact_mod_cast hdm
  by_cases h0 : tc % s = 0
  · have hnat : (tc + s - 1) / s = tc / s := by
      have h1 : tc + s - 1 = s * (tc / s) + (s - 1) := by omega
      rw [h1, Nat.mul_add_div hs, Nat.div_eq_of_lt (show s - 1 < s by omega), Nat.add_zero]
    rw [hnat]
    have hcast : -(tc : Int) = (s : Int) * (-((tc / s : Nat) : Int)) := by
      rw [← hdmI]
      have h0I : ((tc % s : Nat) : Int) = 0 := by exact_mod_cast h0
      rw [h0I]
      ring
    rw [hcast, Int.mul_ediv_cancel_left _ hsne]
    simp
  · have hnat : (tc + s - 1) / s = tc / s + 1 := by
      have h1 : tc + s - 1 = s * (tc / s + 1) + (tc % s - 1) := by
        rw [Nat.mul_add, Nat.mul_one]
        omega
      rw [h1, Nat.mul_add_div hs, Nat.div_eq_of_lt (show tc % s - 1 < s by omega),
        Nat.add_zero]
    rw [hnat]
    have hcast : -(tc : Int) = ((s : Int) - (tc % s : Nat))
        + (-((tc / s : Nat) : Int) - 1) * s := by
      rw [← hdmI]
      ring
    rw [hcast, Int.add_mul_ediv_right _ _ hsne]
    have hz : ((s : Int) - (tc % s : Nat)) / s = 0 := by
      apply Int.ediv_eq_zero_of_lt
      · have : ((tc % s : Nat) : Int) < s := by exact_mod_cast hrlt
        omega
      · have : (0 : Int) < ((tc % s : Nat) : Int) := by
          exact_mod_cast Nat.pos_iff_ne_zero.mpr h0
        omega
    rw [hz]
    push_cast
    ring

/-- C4: with neither `page` nor `pageSize` supplied, the list handler
returns the complete filtered set, newest first, with no pagination
envelope; with either supplied it returns the `{data, pagination}`
envelope whose `totalPages` is `Math.ceil(totalCount / pageSize)`, equal
to the natural ceiling division for positive page sizes; concretely,
`totalCount = 95`, `pageSize = 20` gives `totalPages = 5`, and `page = 6`
yields an empty data list with `totalPages` still 5. -/
theorem getAllSchools_pagination :
    (∀ (ctx : AuthCtx) (db : List School),
        getAllSchools ctx none none db = .plain (listSchools ctx db)
      ∧ (listSchools ctx db).Sorted newerFirst
      ∧ (listSchools ctx db).Perm (db.filter (visibleTo ctx)))
  ∧ (∀ (ctx : AuthCtx) (db : List School) (pq psq : Option String),
        (queryTruthy pq || queryTruthy psq) = true →
          ∃ data p s tc, getAllSchools ctx pq psq db
            = .paged data p s tc (jsCeilDiv tc s))
  ∧ (∀ tc s : Nat, 0 < s → jsCeilDiv tc s = (((tc + s - 1) / s : Nat) : Int))
  ∧ getAllSchools adminCtx (some "6") (some "20") (demoDb 95) = .paged [] 6 20 95 5
  ∧ jsCeilDiv 95 20 = 5 := by
  refine ⟨?_, ?_, jsCeilDiv_eq_natCeil, by decide, by decide⟩
  · intro ctx db
    exact ⟨rfl, List.sorted_insertionSort newerFirst _, List.perm_insertionSort newerFirst _⟩
  · intro ctx db pq psq h
    have hcond : (!queryTruthy pq && !queryTruthy psq) = false := by
      cases hq : queryTruthy pq <;> cases hq2 : queryTruthy psq <;> simp_all
    simp only [getAllSchools, hcond, Bool.false_eq_true, if_false]
    exact ⟨_, _, _, _, rfl⟩

/-- A formatted phone output is never the empty string. -/
theorem plus995_append_ne_empty (x1 x2 x3 x4 : String) :
    ("+995 " ++ x1 ++ " " ++ x2 ++ " " ++ x3 ++ " " ++ x4) ≠ "" := by
  intro h
  have hd := congrArg String.data h
  simp only [String.data_append] at hd
  simp at hd

/-- C5 (amended): for every 9-digit string the formatter produces
`"+995 " + d[0:3] + " " + d[3:5] + " " + d[5:7] + " " + d[7:9]`, and the two
quoted examples format to `"+995 577 18 91 27"`; but the formatter's
rejection set is characterized by its cleaned form, not by the three
spec shapes: it returns `""` exactly when, after stripping every character
other than digits and `+`, the remainder is neither 9 bare digits nor a
13-character string starting with `+995`. -/
theorem formatGeorgianPhone_spec :
    (∀ d : String, d.data.length = 9 → (∀ c ∈ d.data, jsDigit c = true) →
       formatGeorgianPhone d
         = "+995 " ++ jsSubstr d 0 3 ++ " " ++ jsSubstr d 3 5 ++ " " ++ jsSubstr d 5 7
             ++ " " ++ jsSubstr d 7 9)
    ∧ formatGeorgianPhone "+995577189127" = "+995 577 18 91 27"
    ∧ formatGeorgianPhone "577189127" = "+995 577 18 91 27"
    ∧ (∀ s : String, formatGeorgianPhone s = "" ↔ phoneCleanAccepted s = false) := by
  refine ⟨?_, by decide, by decide, ?_⟩
  · intro d hlen hdig
    have hne : d ≠ "" := by
      intro h
      rw [h] at hlen
      simp at hlen
    have hclean : cleanedPhone d = d.data := by
      unfold cleanedPhone
      apply List.filter_eq_self.mpr
      intro a ha
      simp [keepDigitPlus, hdig a ha]
    have hnine : isNineDigits d.data = true := by
      simp only [isNineDigits, Bool.and_eq_true, decide_eq_true_eq, List.all_eq_true]
      exact ⟨hlen, hdig⟩
    simp only [formatGeorgianPhone, if_neg hne, hclean, hnine, if_true, hlen]
    simp [jsSubstr]
  · intro s
    by_cases hs : s = ""
    · subst hs
      decide
    · by_cases h9 : isNineDigits (cleanedPhone s) = true
      · have hlen9 : (cleanedPhone s).length = 9 := by
          simp only [isNineDigits, Bool.and_eq_true, decide_eq_true_eq] at h9
          exact h9.1
        have hfmt : formatGeorgianPhone s ≠ "" := by
          simp only [formatGeorgianPhone, if_neg hs, h9, if_true, hlen9]
          exact plus995_append_ne_empty _ _ _ _
        have hacc : phoneCleanAccepted s = true := by
          simp [phoneCleanAccepted, h9]
        rw [hacc]
        simp [hfmt]
      · rw [Bool.not_eq_true] at h9
        by_cases hp : (['+', '9', '9', '5'].isPrefixOf (cleanedPhone s)) = true
        · have hge4 : 4 ≤ (cleanedPhone s).length := by
            have hpre := List.isPrefixOf_iff_prefix.mp hp
            exact hpre.length_le
          by_cases hl : (cleanedPhone s).length = 13
          · have hdlen : ((cleanedPhone s).drop 4).length = 9 := by
              rw [List.length_drop, hl]
            have hfmt : formatGeorgianPhone s ≠ "" := by
              simp only [formatGeorgianPhone, if_neg hs, h9, Bool.false_eq_true,
                if_false, hp, if_true, hdlen]
              exact plus995_append_ne_empty _ _ _ _
            have hacc : phoneCleanAccepted s = true := by
              simp [phoneCleanAccepted, hp, hl]
            rw [hacc]
            simp [hfmt]
          · have hdlen : ((cleanedPhone s).drop 4).length ≠ 9 := by
              rw [List.length_drop]
              omega
            have hfmt : formatGeorgianPhone s = "" := by
              simp only [formatGeorgianPhone, if_neg hs, h9, Bool.false_eq_true,
                if_false, hp, if_true]
              rw [if_neg hdlen]
            have hacc : phoneCleanAccepted s = false := by
              simp [phoneCleanAccepted, h9, hl]
            rw [hacc, hfmt]
            simp
        · rw [Bool.not_eq_true] at hp
          have hfmt : formatGeorgianPhone s = "" := by
            simp only [formatGeorgianPhone, if_neg hs, h9, Bool.false_eq_true,
              if_false, hp]
          have hacc : phoneCleanAccepted s = false := by
            simp [phoneCleanAccepted, h9, hp]
          rw [hacc, hfmt]
          simp

/-- C5 counterexample: `"577-18-91-27"` matches none of the three
recognized shapes (it is hyphen-separated, not one of the accepted
layouts), yet the formatter does not return the empty string — it strips
the hyphens and formats the digits. -/
theorem nonshape_input_formatted :
    specRecognizedShape "577-18-91-27" = false
    ∧ formatGeorgianPhone "577-18-91-27" = "+995 577 18 91 27"
    ∧ formatGeorgianPhone "577-18-91-27" ≠ "" := by
  refine ⟨by decide, by decide, by decide⟩
